import Mathlib

/-
Verification of the watch-cycle engine of zarif98/RedditBot (src/bot.py).

The Python program is shallowly embedded: the pure decision logic is
translated to Lean functions, the pickle state file is an explicit
DiskFile value, and the external effects (Pushover POSTs, pickle.dump
write outcomes, praw fetch results) are supplied as oracle inputs. The
observable calls of a pass are logged as an Event list.
-/

namespace RedditBot

/-- A fetched Reddit submission, restricted to the praw fields bot.py reads. -/
structure Submission where
  id : String
  title : String
  score : Int
  url : String
  permalink : String
deriving DecidableEq, Repr

/-- Python exceptions relevant to bot.py, abstracted to their class. -/
inductive PyError where
  | fileNotFound
  | unpickling
  | ioError
  | typeError
  | fetchError
deriving DecidableEq, Repr

/-- State of the processed_submissions.pkl file: absent, present but not
unpicklable, or a valid pickle of a set of SeenKeys. The Nat field models
the byte count reported by os.path.getsize. -/
inductive DiskFile where
  | absent : DiskFile
  | corrupt : Nat → DiskFile
  | valid : Nat → List String → DiskFile
deriving DecidableEq, Repr

/-- os.path.getsize when the file exists, none when it does not. -/
def DiskFile.getSize? : DiskFile → Option Nat
  | .absent => none
  | .corrupt n => some n
  | .valid n _ => some n

/-- The keys stored in a valid state file (empty for absent or corrupt). -/
def diskKeys : DiskFile → List String
  | .valid _ c => c
  | _ => []

/-- RedditMonitor.max_file_size (bot.py line 51): 5 * 1024 * 1024 bytes. -/
def max_file_size : Nat := 5 * 1024 * 1024

/-- RedditMonitor.load_processed_submissions (bot.py lines 76-81): open plus
pickle.load inside a try block whose only handler is for FileNotFoundError.
An absent file yields the empty set; a present file that fails to unpickle
raises out of the method, and hence out of RedditMonitor.__init__ which
calls it at line 58. -/
def load_processed_submissions : DiskFile → Except PyError (List String)
  | .absent => .ok []
  | .corrupt _ => .error .unpickling
  | .valid _ c => .ok c

/-- Result of one save call: the in-memory set after the call, the file
after the call, and the exception propagated to the caller, if any. -/
structure SaveResult where
  mem : List String
  disk : DiskFile
  err : Option PyError
deriving Repr

/-- The reset condition of bot.py line 84: the previous file exists and its
size exceeds max_file_size. -/
def oversize (disk : DiskFile) : Bool :=
  match disk.getSize? with
  | some n => decide (n > max_file_size)
  | none => false

/-- RedditMonitor.save_processed_submissions (bot.py lines 83-90),
parameterised by the byte size a pickle encoding would occupy (pickleSize)
and by whether the write succeeds (writeOk). If the existing file exceeds
max_file_size, the file is removed and self.processed_submissions is
reassigned to the EMPTY set before the dump. The method has no exception
handler: a failing dump raises to the caller (err = some ioError), leaving
a truncated, unpicklable file behind, since open with mode wb truncates. -/
def save_processed_submissions (pickleSize : List String → Nat) (writeOk : Bool)
    (mem : List String) (disk : DiskFile) : SaveResult :=
  let mem2 := if oversize disk then [] else mem
  if writeOk then
    { mem := mem2, disk := DiskFile.valid (pickleSize mem2) mem2, err := none }
  else
    { mem := mem2, disk := DiskFile.corrupt 0, err := some PyError.ioError }

/-- Observable calls made during a pass, recorded for the theorems. A push
event carries the SeenKey of the submission the message is about and the
message text; recordKey marks the set.add call at bot.py line 133. -/
inductive Event where
  | push : String → String → Event
  | pushResponse : String → Event
  | pushSendFailed : PyError → Event
  | recordKey : String → Event
  | skipDuplicate : String → Event
  | errorNotice : String → Event
  | errorNoticeFailed : PyError → Event
deriving DecidableEq, Repr

/-- Rendering of str(e) for the abstract exception classes. -/
def pyErrorText : PyError → String
  | .fileNotFound => "FileNotFoundError"
  | .unpickling => "UnpicklingError"
  | .ioError => "OSError"
  | .typeError => "TypeError"
  | .fetchError => "RequestException"

/-- The SeenKey of bot.py line 115: the f-string subreddit-submissionid. -/
def seenKey (subreddit id : String) : String := subreddit ++ "-" ++ id

/-- The notification message of bot.py lines 120-125 (the Author line is
commented out in the source). -/
def matchMessage (subreddit : String) (s : Submission) : String :=
  "Match found in \x27" ++ subreddit ++ "\x27 subreddit:\n" ++
  "Title: " ++ s.title ++ "\n" ++
  "URL: " ++ s.url ++ "\n" ++
  "Upvotes: " ++ toString s.score ++ "\n" ++
  "Permalink: https://www.reddit.com" ++ s.permalink ++ "\n"

/-- The error message built at bot.py line 139. -/
def searchErrorMessage (subreddit : String) (e : PyError) : String :=
  "Error during Reddit search for \x27" ++ subreddit ++ "\x27: " ++ pyErrorText e

/-- send_push_notification (bot.py lines 60-74): one POST to Pushover inside
a try block with a catch-all handler; the call always returns normally,
whatever the POST outcome. -/
def send_push_notification (key message : String)
    (postResult : Except PyError String) : List Event :=
  match postResult with
  | .ok body => [Event.push key message, Event.pushResponse body]
  | .error e => [Event.push key message, Event.pushSendFailed e]

/-- send_error_notification (bot.py lines 92-106): posts the message with the
Error in Reddit Scraper prefix, inside a try block with a catch-all handler. -/
def send_error_notification (message : String)
    (postResult : Except PyError String) : List Event :=
  match postResult with
  | .ok _ => [Event.errorNotice ("Error in Reddit Scraper: " ++ message)]
  | .error e =>
      [Event.errorNotice ("Error in Reddit Scraper: " ++ message),
       Event.errorNoticeFailed e]

/-- Python str.lower, modelled character by character; Char.toLower performs
the ASCII lowering, on which Python and Lean agree. -/
def pyLower (s : String) : String := String.mk (s.data.map Char.toLower)

/-- Keyword clause of bot.py line 127: all(keyword in submission.title.lower()
for keyword in self.keywords). Python substring membership is List.IsInfix on
the character lists. -/
def keywordOk (keywords : List String) (title : String) : Bool :=
  keywords.all fun kw => decide (List.IsInfix kw.toList (pyLower title).toList)

/-- Score clause of bot.py line 128: min_upvotes is None or score ≥ min. -/
def upvotesOk (minUpvotes : Option Int) (score : Int) : Bool :=
  match minUpvotes with
  | none => true
  | some m => decide (m ≤ score)

/-- The full match predicate of bot.py lines 127-128. -/
def submissionMatches (keywords : List String) (minUpvotes : Option Int)
    (s : Submission) : Bool :=
  keywordOk keywords s.title && upvotesOk minUpvotes s.score

/-- The configuration of one RedditMonitor (one entry of subreddits_to_search). -/
structure MonitorCfg where
  subreddit : String
  keywords : List String
  minUpvotes : Option Int := none

/-- Outcomes of the external effects during one pass: the Pushover POST
result for the push about a given submission, the POST result for an error
notification with a given message, whether the pickle.dump after a given
submission succeeds, and the byte size a pickle encoding would occupy. -/
structure Oracles where
  pushResult : Submission → Except PyError String
  errResult : String → Except PyError String
  writeOk : Submission → Bool
  pickleSize : List String → Nat

/-- State threaded through one search pass: the in-memory set, the state
file, the events so far, and whether the outer exception handler of
search_reddit_for_keywords has been entered (ending the loop). -/
structure PassState where
  processed : List String
  disk : DiskFile
  events : List Event
  aborted : Bool
deriving Repr

/-- One iteration of the submission loop of search_reddit_for_keywords
(bot.py lines 114-135): skip if the SeenKey is already processed; otherwise,
if the match predicate holds, push the notification, add the SeenKey, and
save. A save failure raises into the outer handler (lines 138-141), which
sends an error notification and ends the pass. -/
def processItem (o : Oracles) (cfg : MonitorCfg) (st : PassState)
    (s : Submission) : PassState :=
  if st.aborted then st
  else
    let key := seenKey cfg.subreddit s.id
    if key ∈ st.processed then
      { st with events := st.events ++ [Event.skipDuplicate s.title] }
    else if submissionMatches cfg.keywords cfg.minUpvotes s then
      let pushEvents := send_push_notification key (matchMessage cfg.subreddit s) (o.pushResult s)
      let mem := st.processed.insert key
      let r := save_processed_submissions o.pickleSize (o.writeOk s) mem st.disk
      match r.err with
      | none =>
          { processed := r.mem, disk := r.disk,
            events := st.events ++ pushEvents ++ [Event.recordKey key],
            aborted := false }
      | some e =>
          { processed := r.mem, disk := r.disk,
            events := st.events ++ pushEvents ++ [Event.recordKey key] ++
              send_error_notification (searchErrorMessage cfg.subreddit e)
                (o.errResult (searchErrorMessage cfg.subreddit e)),
            aborted := true }
    else st

/-- RedditMonitor.search_reddit_for_keywords (bot.py lines 108-141): fetch up
to ten new submissions and run the loop; a fetch failure goes straight to
the outer handler, which sends an error notification. The method itself
never raises: every exception is absorbed by the handler at line 138. -/
def search_reddit_for_keywords (o : Oracles) (cfg : MonitorCfg)
    (fetch : Except PyError (List Submission)) (mem : List String)
    (disk : DiskFile) : PassState :=
  match fetch with
  | .error e =>
      { processed := mem, disk := disk,
        events := send_error_notification (searchErrorMessage cfg.subreddit e)
          (o.errResult (searchErrorMessage cfg.subreddit e)),
        aborted := true }
  | .ok subs =>
      subs.foldl (processItem o cfg)
        { processed := mem, disk := disk, events := [], aborted := false }

/-- External inputs of one iteration of the main while loop for one monitor. -/
structure CycleInput where
  fetch : Except PyError (List Submission)
  oracles : Oracles

/-- One iteration of the while loop of main (bot.py lines 158-168) for a
single-element subreddits_to_search: a fresh RedditMonitor is constructed,
whose __init__ loads the state file; a load failure raises out of the
constructor, which is evaluated outside any try block, so it crashes the
process (Except.error). -/
def runCycle (cfg : MonitorCfg) (i : CycleInput) (disk : DiskFile) :
    Except PyError PassState :=
  match load_processed_submissions disk with
  | .error e => .error e
  | .ok mem => .ok (search_reddit_for_keywords i.oracles cfg i.fetch mem disk)

/-- Successive iterations of the main while loop for a single configured
source, accumulating events and threading the state file. -/
def runCycles (cfg : MonitorCfg) : List CycleInput → DiskFile →
    Except PyError (DiskFile × List Event)
  | [], disk => .ok (disk, [])
  | i :: rest, disk =>
    match runCycle cfg i disk with
    | .error e => .error e
    | .ok st =>
      match runCycles cfg rest st.disk with
      | .error e => .error e
      | .ok (d, evs) => .ok (d, st.events ++ evs)

/-- The SeenKeys for which send_push_notification was invoked, in order. -/
def pushKeys (evs : List Event) : List String :=
  evs.filterMap fun e =>
    match e with
    | Event.push k _ => some k
    | _ => none

/-- The SeenKeys passed to processed_submissions.add, in order. -/
def recordKeys (evs : List Event) : List String :=
  evs.filterMap fun e =>
    match e with
    | Event.recordKey k => some k
    | _ => none

/-- The per-future handling of main (bot.py lines 162-168): when
future.result() raises, the except block evaluates RedditMonitor(reddit),
which is missing the required positional arguments subreddit and keywords,
so Python raises TypeError before send_error_notification can run; that
TypeError is not caught by anything and aborts main. -/
def handleFutureResult (r : Except PyError Unit) : Except PyError (List Event) :=
  match r with
  | .ok _ => .ok []
  | .error _ => .error PyError.typeError

/-- Modelled from the words of the specification, for claim C5: every
keyword is a case-insensitive substring of the title (the lowering applied
to both sides), and the minimum score is absent or the score is at least
the minimum. -/
def specMatches (keywords : List String) (minUpvotes : Option Int)
    (s : Submission) : Prop :=
  (∀ kw ∈ keywords, List.IsInfix (pyLower kw).toList (pyLower s.title).toList) ∧
  (∀ m, minUpvotes = some m → m ≤ s.score)

/-- The in-memory set returned by save: emptied exactly when the previous
file was oversized. -/
lemma save_mem_eq (ps : List String → Nat) (w : Bool) (mem : List String)
    (disk : DiskFile) :
    (save_processed_submissions ps w mem disk).mem =
      if oversize disk then [] else mem := by
  unfold save_processed_submissions
  cases w <;> simp

/-- The exception raised by save: exactly when the write fails. -/
lemma save_err_eq (ps : List String → Nat) (w : Bool) (mem : List String)
    (disk : DiskFile) :
    (save_processed_submissions ps w mem disk).err =
      if w then none else some PyError.ioError := by
  unfold save_processed_submissions
  cases w <;> simp

/-- The file written by a successful save holds exactly the set that save
kept in memory. -/
lemma save_disk_eq (ps : List String → Nat) (mem : List String)
    (disk : DiskFile) :
    (save_processed_submissions ps true mem disk).disk =
      DiskFile.valid (ps (save_processed_submissions ps true mem disk).mem)
        (save_processed_submissions ps true mem disk).mem := by
  unfold save_processed_submissions
  simp

/-- A successful save over a previous file within the size bound keeps the
set unchanged and persists it as written. -/
lemma save_no_overflow (ps : List String → Nat) (mem : List String)
    (disk : DiskFile) (h : oversize disk = false) :
    save_processed_submissions ps true mem disk =
      { mem := mem, disk := DiskFile.valid (ps mem) mem, err := none } := by
  unfold save_processed_submissions
  simp [h]

lemma pushKeys_append (a b : List Event) :
    pushKeys (a ++ b) = pushKeys a ++ pushKeys b := by
  simp [pushKeys, List.filterMap_append]

lemma recordKeys_append (a b : List Event) :
    recordKeys (a ++ b) = recordKeys a ++ recordKeys b := by
  simp [recordKeys, List.filterMap_append]

lemma pushKeys_send_push (k m : String) (p : Except PyError String) :
    pushKeys (send_push_notification k m p) = [k] := by
  cases p <;> rfl

lemma recordKeys_send_push (k m : String) (p : Except PyError String) :
    recordKeys (send_push_notification k m p) = [] := by
  cases p <;> rfl

lemma pushKeys_send_error (m : String) (p : Except PyError String) :
    pushKeys (send_error_notification m p) = [] := by
  cases p <;> rfl

lemma recordKeys_send_error (m : String) (p : Except PyError String) :
    recordKeys (send_error_notification m p) = [] := by
  cases p <;> rfl

/-- Equation for processItem when the pass is already in its outer handler. -/
lemma processItem_aborted (o : Oracles) (cfg : MonitorCfg) (st : PassState)
    (s : Submission) (h : st.aborted = true) : processItem o cfg st s = st := by
  unfold processItem
  simp [h]

/-- Equation for processItem on an already-seen key: one skip log, no push,
no state change. -/
lemma processItem_skip (o : Oracles) (cfg : MonitorCfg) (st : PassState)
    (s : Submission) (h : st.aborted = false)
    (hk : seenKey cfg.subreddit s.id ∈ st.processed) :
    processItem o cfg st s =
      { st with events := st.events ++ [Event.skipDuplicate s.title] } := by
  unfold processItem
  simp [h, hk]

/-- Equation for processItem on an unseen item that fails the predicate:
nothing happens. -/
lemma processItem_nomatch (o : Oracles) (cfg : MonitorCfg) (st : PassState)
    (s : Submission) (h : st.aborted = false)
    (hk : seenKey cfg.subreddit s.id ∉ st.processed)
    (hm : submissionMatches cfg.keywords cfg.minUpvotes s = false) :
    processItem o cfg st s = st := by
  unfold processItem
  simp [h, hk, hm]

/-- Equation for processItem on an unseen matching item whose save succeeds. -/
lemma processItem_match_ok (o : Oracles) (cfg : MonitorCfg) (st : PassState)
    (s : Submission) (h : st.aborted = false)
    (hk : seenKey cfg.subreddit s.id ∉ st.processed)
    (hm : submissionMatches cfg.keywords cfg.minUpvotes s = true)
    (hw : o.writeOk s = true) :
    processItem o cfg st s =
      { processed := (save_processed_submissions o.pickleSize true
            (st.processed.insert (seenKey cfg.subreddit s.id)) st.disk).mem,
        disk := (save_processed_submissions o.pickleSize true
            (st.processed.insert (seenKey cfg.subreddit s.id)) st.disk).disk,
        events := st.events ++
          send_push_notification (seenKey cfg.subreddit s.id)
            (matchMessage cfg.subreddit s) (o.pushResult s) ++
          [Event.recordKey (seenKey cfg.subreddit s.id)],
        aborted := false } := by
  unfold processItem
  rw [if_neg (by simp [h]), if_neg hk, if_pos hm]
  have he := save_err_eq o.pickleSize (o.writeOk s)
    (st.processed.insert (seenKey cfg.subreddit s.id)) st.disk
  rw [hw] at he
  simp only [hw]
  rw [he]
  rfl

/-- Equation for processItem on an unseen matching item whose save fails:
the outer handler sends an error notification and the pass is ended. -/
lemma processItem_match_fail (o : Oracles) (cfg : MonitorCfg) (st : PassState)
    (s : Submission) (h : st.aborted = false)
    (hk : seenKey cfg.subreddit s.id ∉ st.processed)
    (hm : submissionMatches cfg.keywords cfg.minUpvotes s = true)
    (hw : o.writeOk s = false) :
    processItem o cfg st s =
      { processed := (save_processed_submissions o.pickleSize false
            (st.processed.insert (seenKey cfg.subreddit s.id)) st.disk).mem,
        disk := (save_processed_submissions o.pickleSize false
            (st.processed.insert (seenKey cfg.subreddit s.id)) st.disk).disk,
        events := st.events ++
          send_push_notification (seenKey cfg.subreddit s.id)
            (matchMessage cfg.subreddit s) (o.pushResult s) ++
          [Event.recordKey (seenKey cfg.subreddit s.id)] ++
          send_error_notification (searchErrorMessage cfg.subreddit PyError.ioError)
            (o.errResult (searchErrorMessage cfg.subreddit PyError.ioError)),
        aborted := true } := by
  unfold processItem
  rw [if_neg (by simp [h]), if_neg hk, if_pos hm]
  have he := save_err_eq o.pickleSize (o.writeOk s)
    (st.processed.insert (seenKey cfg.subreddit s.id)) st.disk
  rw [hw] at he
  simp only [hw]
  rw [he]
  rfl

@[simp] lemma pushKeys_nil : pushKeys [] = [] := rfl

@[simp] lemma recordKeys_nil : recordKeys [] = [] := rfl

@[simp] lemma pushKeys_cons_push (k m : String) (evs : List Event) :
    pushKeys (Event.push k m :: evs) = k :: pushKeys evs := rfl

@[simp] lemma pushKeys_cons_pushResponse (b : String) (evs : List Event) :
    pushKeys (Event.pushResponse b :: evs) = pushKeys evs := rfl

@[simp] lemma pushKeys_cons_pushSendFailed (e : PyError) (evs : List Event) :
    pushKeys (Event.pushSendFailed e :: evs) = pushKeys evs := rfl

@[simp] lemma pushKeys_cons_recordKey (k : String) (evs : List Event) :
    pushKeys (Event.recordKey k :: evs) = pushKeys evs := rfl

@[simp] lemma pushKeys_cons_skipDuplicate (t : String) (evs : List Event) :
    pushKeys (Event.skipDuplicate t :: evs) = pushKeys evs := rfl

@[simp] lemma pushKeys_cons_errorNotice (m : String) (evs : List Event) :
    pushKeys (Event.errorNotice m :: evs) = pushKeys evs := rfl

@[simp] lemma pushKeys_cons_errorNoticeFailed (e : PyError) (evs : List Event) :
    pushKeys (Event.errorNoticeFailed e :: evs) = pushKeys evs := rfl

@[simp] lemma recordKeys_cons_push (k m : String) (evs : List Event) :
    recordKeys (Event.push k m :: evs) = recordKeys evs := rfl

@[simp] lemma recordKeys_cons_pushResponse (b : String) (evs : List Event) :
    recordKeys (Event.pushResponse b :: evs) = recordKeys evs := rfl

@[simp] lemma recordKeys_cons_pushSendFailed (e : PyError) (evs : List Event) :
    recordKeys (Event.pushSendFailed e :: evs) = recordKeys evs := rfl

@[simp] lemma recordKeys_cons_recordKey (k : String) (evs : List Event) :
    recordKeys (Event.recordKey k :: evs) = k :: recordKeys evs := rfl

@[simp] lemma recordKeys_cons_skipDuplicate (t : String) (evs : List Event) :
    recordKeys (Event.skipDuplicate t :: evs) = recordKeys evs := rfl

@[simp] lemma recordKeys_cons_errorNotice (m : String) (evs : List Event) :
    recordKeys (Event.errorNotice m :: evs) = recordKeys evs := rfl

@[simp] lemma recordKeys_cons_errorNoticeFailed (e : PyError) (evs : List Event) :
    recordKeys (Event.errorNoticeFailed e :: evs) = recordKeys evs := rfl

@[simp] lemma pushKeys_skipDup (t : String) :
    pushKeys [Event.skipDuplicate t] = [] := rfl

@[simp] lemma recordKeys_skipDup (t : String) :
    recordKeys [Event.skipDuplicate t] = [] := rfl

@[simp] lemma pushKeys_recordKey (k : String) :
    pushKeys [Event.recordKey k] = [] := rfl

@[simp] lemma recordKeys_recordKey (k : String) :
    recordKeys [Event.recordKey k] = [k] := rfl

/-- One step of the pass preserves the record-iff-push bookkeeping. -/
lemma processItem_c7 (o : Oracles) (cfg : MonitorCfg) (mem0 : List String)
    (st : PassState) (s : Submission)
    (h1 : recordKeys st.events = pushKeys st.events)
    (h2 : ∀ k ∈ st.processed, k ∈ mem0 ∨ k ∈ pushKeys st.events) :
    recordKeys (processItem o cfg st s).events =
      pushKeys (processItem o cfg st s).events ∧
    ∀ k ∈ (processItem o cfg st s).processed,
      k ∈ mem0 ∨ k ∈ pushKeys (processItem o cfg st s).events := by
  set key := seenKey cfg.subreddit s.id with hkey
  by_cases ha : st.aborted = true
  · rw [processItem_aborted o cfg st s ha]
    exact ⟨h1, h2⟩
  · replace ha : st.aborted = false := by
      cases h : st.aborted with
      | true => exact absurd h ha
      | false => rfl
    by_cases hk : key ∈ st.processed
    · rw [processItem_skip o cfg st s ha hk]
      refine ⟨?_, ?_⟩
      · simp [pushKeys_append, recordKeys_append, h1]
      · intro k hkp
        rcases h2 k hkp with h | h
        · exact Or.inl h
        · exact Or.inr (by simp [pushKeys_append, h])
    · by_cases hm : submissionMatches cfg.keywords cfg.minUpvotes s = true
      · have hmem : ∀ k, k ∈ (save_processed_submissions o.pickleSize
            (o.writeOk s) (st.processed.insert key) st.disk).mem →
            k = key ∨ k ∈ st.processed := by
          intro k hk2
          rw [save_mem_eq] at hk2
          by_cases hov : oversize st.disk = true
          · rw [if_pos hov] at hk2
            cases hk2
          · rw [if_neg hov] at hk2
            exact List.mem_insert_iff.mp hk2
        by_cases hw : o.writeOk s = true
        · rw [processItem_match_ok o cfg st s ha hk hm hw]
          refine ⟨?_, ?_⟩
          · simp [pushKeys_append, recordKeys_append, pushKeys_send_push,
              recordKeys_send_push, h1]
          · intro k hkp
            rw [hw] at hmem
            rcases hmem k hkp with rfl | hin
            · exact Or.inr (by simp [pushKeys_append, pushKeys_send_push])
            · rcases h2 k hin with h | h
              · exact Or.inl h
              · exact Or.inr (by simp [pushKeys_append, pushKeys_send_push, h])
        · replace hw : o.writeOk s = false := by
            cases h : o.writeOk s with
            | true => exact absurd h hw
            | false => rfl
          rw [processItem_match_fail o cfg st s ha hk hm hw]
          refine ⟨?_, ?_⟩
          · simp [pushKeys_append, recordKeys_append, pushKeys_send_push,
              recordKeys_send_push, pushKeys_send_error, recordKeys_send_error, h1]
          · intro k hkp
            rw [hw] at hmem
            rcases hmem k hkp with rfl | hin
            · exact Or.inr (by simp [pushKeys_append, pushKeys_send_push,
                pushKeys_send_error])
            · rcases h2 k hin with h | h
              · exact Or.inl h
              · exact Or.inr (by simp [pushKeys_append, pushKeys_send_push,
                  pushKeys_send_error, h])
      · replace hm : submissionMatches cfg.keywords cfg.minUpvotes s = false := by
          cases h : submissionMatches cfg.keywords cfg.minUpvotes s with
          | true => exact absurd h hm
          | false => rfl
        rw [processItem_nomatch o cfg st s ha hk hm]
        exact ⟨h1, h2⟩

/-- The record-iff-push bookkeeping survives a whole fold over the fetched
submissions. -/
lemma foldl_c7 (o : Oracles) (cfg : MonitorCfg) (mem0 : List String)
    (subs : List Submission) :
    ∀ st : PassState, recordKeys st.events = pushKeys st.events →
      (∀ k ∈ st.processed, k ∈ mem0 ∨ k ∈ pushKeys st.events) →
      recordKeys (subs.foldl (processItem o cfg) st).events =
        pushKeys (subs.foldl (processItem o cfg) st).events ∧
      ∀ k ∈ (subs.foldl (processItem o cfg) st).processed,
        k ∈ mem0 ∨ k ∈ pushKeys (subs.foldl (processItem o cfg) st).events := by
  induction subs with
  | nil => intro st h1 h2; exact ⟨h1, h2⟩
  | cons s rest ih =>
    intro st h1 h2
    obtain ⟨h1x, h2x⟩ := processItem_c7 o cfg mem0 st s h1 h2
    exact ih (processItem o cfg st s) h1x h2x

/-- Claim C7: across one pass, the keys passed to processed_submissions.add
are exactly the keys for which a push notification was dispatched, in the
same order, because the add at line 133 sits in the same guarded block as
the dispatch at line 130; and the in-memory set only ever holds loaded keys
or pushed keys, so an item that fails the match predicate is never marked
seen and stays eligible for later cycles. -/
theorem claim_C7_record_iff_push (o : Oracles) (cfg : MonitorCfg)
    (fetch : Except PyError (List Submission)) (mem : List String)
    (disk : DiskFile) :
    recordKeys (search_reddit_for_keywords o cfg fetch mem disk).events =
      pushKeys (search_reddit_for_keywords o cfg fetch mem disk).events ∧
    ∀ k ∈ (search_reddit_for_keywords o cfg fetch mem disk).processed,
      k ∈ mem ∨ k ∈ pushKeys (search_reddit_for_keywords o cfg fetch mem disk).events := by
  cases fetch with
  | error e =>
    refine ⟨?_, ?_⟩
    · simp [search_reddit_for_keywords, recordKeys_send_error, pushKeys_send_error]
    · intro k hk
      exact Or.inl (by simpa [search_reddit_for_keywords] using hk)
  | ok subs =>
    unfold search_reddit_for_keywords
    exact foldl_c7 o cfg mem subs
      { processed := mem, disk := disk, events := [], aborted := false }
      rfl (fun k hk => Or.inl hk)

/-- Witness for C7 at a concrete pass. -/
theorem claim_C7_record_iff_push_witness :
    recordKeys (search_reddit_for_keywords
        { pushResult := fun _ => Except.ok "1", errResult := fun _ => Except.ok "1",
          writeOk := fun _ => true, pickleSize := fun _ => 0 }
        { subreddit := "r", keywords := [], minUpvotes := none }
        (Except.ok []) [] DiskFile.absent).events =
      pushKeys (search_reddit_for_keywords
        { pushResult := fun _ => Except.ok "1", errResult := fun _ => Except.ok "1",
          writeOk := fun _ => true, pickleSize := fun _ => 0 }
        { subreddit := "r", keywords := [], minUpvotes := none }
        (Except.ok []) [] DiskFile.absent).events ∧
    ∀ k ∈ (search_reddit_for_keywords
        { pushResult := fun _ => Except.ok "1", errResult := fun _ => Except.ok "1",
          writeOk := fun _ => true, pickleSize := fun _ => 0 }
        { subreddit := "r", keywords := [], minUpvotes := none }
        (Except.ok []) [] DiskFile.absent).processed,
      k ∈ ([] : List String) ∨ k ∈ pushKeys (search_reddit_for_keywords
        { pushResult := fun _ => Except.ok "1", errResult := fun _ => Except.ok "1",
          writeOk := fun _ => true, pickleSize := fun _ => 0 }
        { subreddit := "r", keywords := [], minUpvotes := none }
        (Except.ok []) [] DiskFile.absent).events :=
  claim_C7_record_iff_push
    { pushResult := fun _ => Except.ok "1", errResult := fun _ => Except.ok "1",
      writeOk := fun _ => true, pickleSize := fun _ => 0 }
    { subreddit := "r", keywords := [], minUpvotes := none }
    (Except.ok []) [] DiskFile.absent

/-- One step of the pass is blind to the Pushover POST outcome: two oracles
that agree on write outcomes, sizes and error-channel outcomes drive related
states to related states, where related means equal up to the push-outcome
detail events. -/
lemma processItem_push_blind (o1 o2 : Oracles) (cfg : MonitorCfg)
    (hw : o1.writeOk = o2.writeOk) (hp : o1.pickleSize = o2.pickleSize)
    (_he : o1.errResult = o2.errResult) (st1 st2 : PassState) (s : Submission)
    (h1 : st1.processed = st2.processed) (h2 : st1.disk = st2.disk)
    (h3 : st1.aborted = st2.aborted)
    (h4 : pushKeys st1.events = pushKeys st2.events)
    (h5 : recordKeys st1.events = recordKeys st2.events) :
    (processItem o1 cfg st1 s).processed = (processItem o2 cfg st2 s).processed ∧
    (processItem o1 cfg st1 s).disk = (processItem o2 cfg st2 s).disk ∧
    (processItem o1 cfg st1 s).aborted = (processItem o2 cfg st2 s).aborted ∧
    pushKeys (processItem o1 cfg st1 s).events =
      pushKeys (processItem o2 cfg st2 s).events ∧
    recordKeys (processItem o1 cfg st1 s).events =
      recordKeys (processItem o2 cfg st2 s).events := by
  set key := seenKey cfg.subreddit s.id with hkey
  by_cases ha : st1.aborted = true
  · rw [processItem_aborted o1 cfg st1 s ha,
      processItem_aborted o2 cfg st2 s (h3 ▸ ha)]
    exact ⟨h1, h2, h3, h4, h5⟩
  · replace ha : st1.aborted = false := by
      cases h : st1.aborted with
      | true => exact absurd h ha
      | false => rfl
    have ha2 : st2.aborted = false := h3 ▸ ha
    by_cases hk : key ∈ st1.processed
    · rw [processItem_skip o1 cfg st1 s ha hk,
        processItem_skip o2 cfg st2 s ha2 (h1 ▸ hk)]
      exact ⟨h1, h2, h3, by simp [pushKeys_append, h4],
        by simp [recordKeys_append, h5]⟩
    · have hk2 : key ∉ st2.processed := h1 ▸ hk
      by_cases hm : submissionMatches cfg.keywords cfg.minUpvotes s = true
      · by_cases hwk : o1.writeOk s = true
        · have hwk2 : o2.writeOk s = true := hw ▸ hwk
          rw [processItem_match_ok o1 cfg st1 s ha hk hm hwk,
            processItem_match_ok o2 cfg st2 s ha2 hk2 hm hwk2]
          refine ⟨?_, ?_, rfl, ?_, ?_⟩
          · simp only [h1, h2, hp]
          · simp only [h1, h2, hp]
          · simp [pushKeys_append, pushKeys_send_push, h4]
          · simp [recordKeys_append, recordKeys_send_push, h5]
        · replace hwk : o1.writeOk s = false := by
            cases h : o1.writeOk s with
            | true => exact absurd h hwk
            | false => rfl
          have hwk2 : o2.writeOk s = false := hw ▸ hwk
          rw [processItem_match_fail o1 cfg st1 s ha hk hm hwk,
            processItem_match_fail o2 cfg st2 s ha2 hk2 hm hwk2]
          refine ⟨?_, ?_, rfl, ?_, ?_⟩
          · simp only [h1, h2, hp]
          · simp only [h1, h2, hp]
          · simp [pushKeys_append, pushKeys_send_push, pushKeys_send_error, h4]
          · simp [recordKeys_append, recordKeys_send_push,
              recordKeys_send_error, h5]
      · replace hm : submissionMatches cfg.keywords cfg.minUpvotes s = false := by
          cases h : submissionMatches cfg.keywords cfg.minUpvotes s with
          | true => exact absurd h hm
          | false => rfl
        rw [processItem_nomatch o1 cfg st1 s ha hk hm,
          processItem_nomatch o2 cfg st2 s ha2 hk2 hm]
        exact ⟨h1, h2, h3, h4, h5⟩

/-- Push-outcome blindness extended over a whole fold. -/
lemma foldl_push_blind (o1 o2 : Oracles) (cfg : MonitorCfg)
    (hw : o1.writeOk = o2.writeOk) (hp : o1.pickleSize = o2.pickleSize)
    (he : o1.errResult = o2.errResult) (subs : List Submission) :
    ∀ st1 st2 : PassState, st1.processed = st2.processed →
      st1.disk = st2.disk → st1.aborted = st2.aborted →
      pushKeys st1.events = pushKeys st2.events →
      recordKeys st1.events = recordKeys st2.events →
      (subs.foldl (processItem o1 cfg) st1).processed =
        (subs.foldl (processItem o2 cfg) st2).processed ∧
      (subs.foldl (processItem o1 cfg) st1).disk =
        (subs.foldl (processItem o2 cfg) st2).disk ∧
      (subs.foldl (processItem o1 cfg) st1).aborted =
        (subs.foldl (processItem o2 cfg) st2).aborted ∧
      pushKeys (subs.foldl (processItem o1 cfg) st1).events =
        pushKeys (subs.foldl (processItem o2 cfg) st2).events ∧
      recordKeys (subs.foldl (processItem o1 cfg) st1).events =
        recordKeys (subs.foldl (processItem o2 cfg) st2).events := by
  induction subs with
  | nil => intro st1 st2 h1 h2 h3 h4 h5; exact ⟨h1, h2, h3, h4, h5⟩
  | cons s rest ih =>
    intro st1 st2 h1 h2 h3 h4 h5
    obtain ⟨g1, g2, g3, g4, g5⟩ :=
      processItem_push_blind o1 o2 cfg hw hp he st1 st2 s h1 h2 h3 h4 h5
    exact ih (processItem o1 cfg st1 s) (processItem o2 cfg st2 s) g1 g2 g3 g4 g5

/-- Claim C8: a notification-dispatch failure is caught inside
send_push_notification and never propagates. First, the whole pass is blind
to the POST outcomes: with the same write outcomes, sizes and error-channel
outcomes, any two push oracles give the same final set, file and abort flag
and the same pushed and recorded key sequences, so the remaining items are
still evaluated identically. Second, a matching unseen item whose push
fails still gets its SeenKey recorded. -/
theorem claim_C8_push_failure_not_propagated (o1 o2 : Oracles)
    (cfg : MonitorCfg) (fetch : Except PyError (List Submission))
    (mem : List String) (disk : DiskFile)
    (hw : o1.writeOk = o2.writeOk) (hp : o1.pickleSize = o2.pickleSize)
    (he : o1.errResult = o2.errResult) :
    ((search_reddit_for_keywords o1 cfg fetch mem disk).processed =
       (search_reddit_for_keywords o2 cfg fetch mem disk).processed ∧
     (search_reddit_for_keywords o1 cfg fetch mem disk).disk =
       (search_reddit_for_keywords o2 cfg fetch mem disk).disk ∧
     (search_reddit_for_keywords o1 cfg fetch mem disk).aborted =
       (search_reddit_for_keywords o2 cfg fetch mem disk).aborted ∧
     pushKeys (search_reddit_for_keywords o1 cfg fetch mem disk).events =
       pushKeys (search_reddit_for_keywords o2 cfg fetch mem disk).events ∧
     recordKeys (search_reddit_for_keywords o1 cfg fetch mem disk).events =
       recordKeys (search_reddit_for_keywords o2 cfg fetch mem disk).events) ∧
    (∀ st s, st.aborted = false →
      seenKey cfg.subreddit s.id ∉ st.processed →
      submissionMatches cfg.keywords cfg.minUpvotes s = true →
      Event.recordKey (seenKey cfg.subreddit s.id) ∈
        (processItem o1 cfg st s).events) := by
  constructor
  · cases fetch with
    | error e =>
      unfold search_reddit_for_keywords
      refine ⟨rfl, rfl, rfl, ?_, ?_⟩
      · rw [he]
      · rw [he]
    | ok subs =>
      unfold search_reddit_for_keywords
      exact foldl_push_blind o1 o2 cfg hw hp he subs
        { processed := mem, disk := disk, events := [], aborted := false }
        { processed := mem, disk := disk, events := [], aborted := false }
        rfl rfl rfl rfl rfl
  · intro st s ha hk hm
    by_cases hwk : o1.writeOk s = true
    · rw [processItem_match_ok o1 cfg st s ha hk hm hwk]
      simp
    · replace hwk : o1.writeOk s = false := by
        cases h : o1.writeOk s with
        | true => exact absurd h hwk
        | false => rfl
      rw [processItem_match_fail o1 cfg st s ha hk hm hwk]
      simp

/-- Oracles for witnesses: every external effect succeeds. -/
def wOkOracles : Oracles :=
  { pushResult := fun _ => Except.ok "1", errResult := fun _ => Except.ok "1",
    writeOk := fun _ => true, pickleSize := fun _ => 0 }

/-- Oracles for witnesses: every Pushover POST fails, writes succeed. -/
def wPushFailOracles : Oracles :=
  { pushResult := fun _ => Except.error PyError.ioError,
    errResult := fun _ => Except.ok "1",
    writeOk := fun _ => true, pickleSize := fun _ => 0 }

/-- A configuration used by witnesses: empty keyword set, no threshold. -/
def wCfg : MonitorCfg := { subreddit := "r", keywords := [], minUpvotes := none }

/-- A submission used by witnesses. -/
def wSub : Submission :=
  { id := "x1", title := "t", score := 1, url := "u", permalink := "p" }

/-- Witness for C8: two oracles differing exactly in the push outcome, one
failing every POST, over a one-item pass with a matching unseen item. -/
theorem claim_C8_push_failure_not_propagated_witness :
    (((search_reddit_for_keywords wOkOracles wCfg (Except.ok [wSub]) []
          DiskFile.absent).processed =
      (search_reddit_for_keywords wPushFailOracles wCfg (Except.ok [wSub]) []
          DiskFile.absent).processed ∧
     (search_reddit_for_keywords wOkOracles wCfg (Except.ok [wSub]) []
          DiskFile.absent).disk =
      (search_reddit_for_keywords wPushFailOracles wCfg (Except.ok [wSub]) []
          DiskFile.absent).disk ∧
     (search_reddit_for_keywords wOkOracles wCfg (Except.ok [wSub]) []
          DiskFile.absent).aborted =
      (search_reddit_for_keywords wPushFailOracles wCfg (Except.ok [wSub]) []
          DiskFile.absent).aborted ∧
     pushKeys (search_reddit_for_keywords wOkOracles wCfg (Except.ok [wSub]) []
          DiskFile.absent).events =
      pushKeys (search_reddit_for_keywords wPushFailOracles wCfg
          (Except.ok [wSub]) [] DiskFile.absent).events ∧
     recordKeys (search_reddit_for_keywords wOkOracles wCfg (Except.ok [wSub]) []
          DiskFile.absent).events =
      recordKeys (search_reddit_for_keywords wPushFailOracles wCfg
          (Except.ok [wSub]) [] DiskFile.absent).events) ∧
    (∀ st s, st.aborted = false →
      seenKey wCfg.subreddit s.id ∉ st.processed →
      submissionMatches wCfg.keywords wCfg.minUpvotes s = true →
      Event.recordKey (seenKey wCfg.subreddit s.id) ∈
        (processItem wOkOracles wCfg st s).events)) :=
  claim_C8_push_failure_not_propagated wOkOracles wPushFailOracles wCfg
    (Except.ok [wSub]) [] DiskFile.absent rfl rfl rfl

/-- The error notification event is present whatever the POST outcome. -/
lemma errorNotice_mem_send_error (m : String) (p : Except PyError String) :
    Event.errorNotice ("Error in Reddit Scraper: " ++ m) ∈
      send_error_notification m p := by
  cases p <;> simp [send_error_notification]

/-- Claim C6, amended: a persistence I/O failure is NOT swallowed at the
store boundary: save_processed_submissions raises, the outer handler of the
pass catches it, sends an error notification, and the remainder of the pass
is abandoned, with every later item of the pass left unprocessed. The key
does stay in the in-memory set of this monitor instance (absent an overflow
reset), but the instance is discarded with the pass, so the unsaved key can
be re-notified by a later cycle. -/
theorem claim_C6_save_failure_aborts_pass (o : Oracles) (cfg : MonitorCfg)
    (st : PassState) (s : Submission)
    (ha : st.aborted = false)
    (hk : seenKey cfg.subreddit s.id ∉ st.processed)
    (hm : submissionMatches cfg.keywords cfg.minUpvotes s = true)
    (hw : o.writeOk s = false)
    (hov : oversize st.disk = false) :
    (processItem o cfg st s).aborted = true ∧
    seenKey cfg.subreddit s.id ∈ (processItem o cfg st s).processed ∧
    Event.errorNotice ("Error in Reddit Scraper: " ++
        searchErrorMessage cfg.subreddit PyError.ioError) ∈
      (processItem o cfg st s).events ∧
    (∀ s2, processItem o cfg (processItem o cfg st s) s2 =
      processItem o cfg st s) := by
  rw [processItem_match_fail o cfg st s ha hk hm hw]
  refine ⟨rfl, ?_, ?_, ?_⟩
  · show seenKey cfg.subreddit s.id ∈
      (save_processed_submissions o.pickleSize false
        (st.processed.insert (seenKey cfg.subreddit s.id)) st.disk).mem
    rw [save_mem_eq, if_neg (by simp [hov])]
    exact List.mem_insert_self _ _
  · apply List.mem_append_right
    exact errorNotice_mem_send_error _ _
  · intro s2
    exact processItem_aborted o cfg _ s2 rfl

/-- Witness for the amended C6: a concrete failing save on a matching
unseen item over an absent state file. -/
theorem claim_C6_save_failure_aborts_pass_witness :
    (processItem
        { pushResult := fun _ => Except.ok "1",
          errResult := fun _ => Except.ok "1",
          writeOk := fun _ => false, pickleSize := fun _ => 0 } wCfg
        { processed := [], disk := DiskFile.absent, events := [],
          aborted := false } wSub).aborted = true ∧
    seenKey wCfg.subreddit wSub.id ∈
      (processItem
        { pushResult := fun _ => Except.ok "1",
          errResult := fun _ => Except.ok "1",
          writeOk := fun _ => false, pickleSize := fun _ => 0 } wCfg
        { processed := [], disk := DiskFile.absent, events := [],
          aborted := false } wSub).processed ∧
    Event.errorNotice ("Error in Reddit Scraper: " ++
        searchErrorMessage wCfg.subreddit PyError.ioError) ∈
      (processItem
        { pushResult := fun _ => Except.ok "1",
          errResult := fun _ => Except.ok "1",
          writeOk := fun _ => false, pickleSize := fun _ => 0 } wCfg
        { processed := [], disk := DiskFile.absent, events := [],
          aborted := false } wSub).events ∧
    (∀ s2, processItem
        { pushResult := fun _ => Except.ok "1",
          errResult := fun _ => Except.ok "1",
          writeOk := fun _ => false, pickleSize := fun _ => 0 } wCfg
        (processItem
          { pushResult := fun _ => Except.ok "1",
            errResult := fun _ => Except.ok "1",
            writeOk := fun _ => false, pickleSize := fun _ => 0 } wCfg
          { processed := [], disk := DiskFile.absent, events := [],
            aborted := false } wSub) s2 =
      processItem
        { pushResult := fun _ => Except.ok "1",
          errResult := fun _ => Except.ok "1",
          writeOk := fun _ => false, pickleSize := fun _ => 0 } wCfg
        { processed := [], disk := DiskFile.absent, events := [],
          aborted := false } wSub) :=
  claim_C6_save_failure_aborts_pass
    { pushResult := fun _ => Except.ok "1",
      errResult := fun _ => Except.ok "1",
      writeOk := fun _ => false, pickleSize := fun _ => 0 } wCfg
    { processed := [], disk := DiskFile.absent, events := [],
      aborted := false } wSub rfl (by decide) (by decide) rfl rfl

/-- Oracles for the C6 counterexample: every pickle.dump fails. -/
def c6Oracles : Oracles :=
  { pushResult := fun _ => Except.ok "1", errResult := fun _ => Except.ok "1",
    writeOk := fun _ => false, pickleSize := fun _ => 64 }

/-- First submission of the C6 counterexample pass. -/
def c6Sub1 : Submission :=
  { id := "s1", title := "alpha", score := 5, url := "u1", permalink := "p1" }

/-- Second submission of the C6 counterexample pass; it matches but is never
reached because the failing save on the first item ends the pass. -/
def c6Sub2 : Submission :=
  { id := "s2", title := "alpha", score := 7, url := "u2", permalink := "p2" }

/-- The C6 counterexample pass: two matching items, the save after the first
one fails with an I/O error. -/
def c6Pass : PassState :=
  search_reddit_for_keywords c6Oracles
    { subreddit := "r", keywords := [], minUpvotes := none }
    (Except.ok [c6Sub1, c6Sub2]) [] DiskFile.absent

/-- Claim C6 is false on the code: the save I/O failure after the first item
propagates out of save_processed_submissions into the outer handler of the
pass, which ends the pass, so the second item, although it matches, is
never evaluated and never pushed. -/
theorem claim_C6_counterexample :
    c6Pass.aborted = true ∧
    pushKeys c6Pass.events = [seenKey "r" "s1"] ∧
    submissionMatches [] none c6Sub2 = true := by
  refine ⟨?_, ?_, ?_⟩ <;> decide

/-- A state file within the size threshold: absent, or valid and at most
5 MB. A corrupt file is excluded: a later constructor load would raise. -/
def diskWithinBound : DiskFile → Bool
  | .absent => true
  | .corrupt _ => false
  | .valid sz _ => decide (sz ≤ max_file_size)

lemma oversize_false_of_within (d : DiskFile) (h : diskWithinBound d = true) :
    oversize d = false := by
  cases d with
  | absent => rfl
  | corrupt n => simp [diskWithinBound] at h
  | valid sz c =>
    simp only [diskWithinBound, decide_eq_true_eq] at h
    simp only [oversize, DiskFile.getSize?, decide_eq_false_iff_not]
    omega

lemma load_eq_diskKeys (d : DiskFile) (h : diskWithinBound d = true) :
    load_processed_submissions d = Except.ok (diskKeys d) := by
  cases d with
  | absent => rfl
  | corrupt n => simp [diskWithinBound] at h
  | valid sz c => rfl

/-- The invariant carried through one pass for the at-most-once argument:
the pass has not entered its handler, the keys pushed so far in this pass
are distinct, each is in memory and none was in the loaded set, the loaded
set stays in memory, and the file is either still the starting one with
nothing pushed yet, or holds exactly the current in-memory set and is
within the size bound. -/
def PassGood (d0 : DiskFile) (mem0 : List String) (st : PassState) : Prop :=
  st.aborted = false ∧
  (pushKeys st.events).Nodup ∧
  (∀ k ∈ pushKeys st.events, k ∈ st.processed ∧ k ∉ mem0) ∧
  (∀ k ∈ mem0, k ∈ st.processed) ∧
  ((st.disk = d0 ∧ pushKeys st.events = []) ∨
   (∃ sz, st.disk = DiskFile.valid sz st.processed ∧ sz ≤ max_file_size))

lemma processItem_good (o : Oracles) (cfg : MonitorCfg) (d0 : DiskFile)
    (mem0 : List String) (st : PassState) (s : Submission)
    (hps : ∀ l, o.pickleSize l ≤ max_file_size)
    (hwo : ∀ s2, o.writeOk s2 = true)
    (hd0 : diskWithinBound d0 = true)
    (hg : PassGood d0 mem0 st) :
    PassGood d0 mem0 (processItem o cfg st s) := by
  obtain ⟨ha, hnd, hpm, hm0, hdisk⟩ := hg
  by_cases hk : seenKey cfg.subreddit s.id ∈ st.processed
  · rw [processItem_skip o cfg st s ha hk]
    refine ⟨ha, ?_, ?_, hm0, ?_⟩
    · simpa [pushKeys_append] using hnd
    · intro k hkp
      rw [show ({ st with events := st.events ++ [Event.skipDuplicate s.title] }
          : PassState).events = st.events ++ [Event.skipDuplicate s.title] from rfl,
        pushKeys_append] at hkp
      simp only [pushKeys_skipDup, List.append_nil] at hkp
      exact hpm k hkp
    · rcases hdisk with ⟨h1, h2⟩ | ⟨sz, hv, hsz⟩
      · exact Or.inl ⟨h1, by simp [pushKeys_append, h2]⟩
      · exact Or.inr ⟨sz, hv, hsz⟩
  · by_cases hm : submissionMatches cfg.keywords cfg.minUpvotes s = true
    · have hov : oversize st.disk = false := by
        rcases hdisk with ⟨h1, _⟩ | ⟨sz, hv, hsz⟩
        · rw [h1]
          exact oversize_false_of_within d0 hd0
        · rw [hv]
          simp only [oversize, DiskFile.getSize?, decide_eq_false_iff_not]
          omega
      rw [processItem_match_ok o cfg st s ha hk hm (hwo s),
        save_no_overflow o.pickleSize _ _ hov]
      have hins : st.processed.insert (seenKey cfg.subreddit s.id) =
          seenKey cfg.subreddit s.id :: st.processed :=
        List.insert_of_not_mem hk
      have hknotpushed : seenKey cfg.subreddit s.id ∉ pushKeys st.events :=
        fun hin => hk (hpm _ hin).1
      refine ⟨rfl, ?_, ?_, ?_, ?_⟩
      · rw [show (st.events ++
            send_push_notification (seenKey cfg.subreddit s.id)
              (matchMessage cfg.subreddit s) (o.pushResult s) ++
            [Event.recordKey (seenKey cfg.subreddit s.id)] : List Event) =
            st.events ++ (send_push_notification (seenKey cfg.subreddit s.id)
              (matchMessage cfg.subreddit s) (o.pushResult s) ++
            [Event.recordKey (seenKey cfg.subreddit s.id)]) from by
              rw [List.append_assoc]]
        rw [pushKeys_append, pushKeys_append, pushKeys_send_push]
        simp only [pushKeys_recordKey, List.append_nil]
        rw [List.nodup_append]
        refine ⟨hnd, List.nodup_singleton _, ?_⟩
        intro a ha1 ha2
        rw [List.mem_singleton] at ha2
        exact hknotpushed (ha2 ▸ ha1)
      · intro k hkp
        rw [pushKeys_append, pushKeys_append, pushKeys_send_push] at hkp
        simp only [pushKeys_recordKey, List.append_nil, List.mem_append,
          List.mem_singleton] at hkp
        rw [hins]
        rcases hkp with hkp | rfl
        · exact ⟨List.mem_cons_of_mem _ (hpm k hkp).1, (hpm k hkp).2⟩
        · exact ⟨List.mem_cons_self _ _, fun hin => hk (hm0 _ hin)⟩
      · intro k hk0
        rw [hins]
        exact List.mem_cons_of_mem _ (hm0 k hk0)
      · exact Or.inr ⟨o.pickleSize (st.processed.insert (seenKey cfg.subreddit s.id)),
          rfl, hps _⟩
    · replace hm : submissionMatches cfg.keywords cfg.minUpvotes s = false := by
        cases h : submissionMatches cfg.keywords cfg.minUpvotes s with
        | true => exact absurd h hm
        | false => rfl
      rw [processItem_nomatch o cfg st s ha hk hm]
      exact ⟨ha, hnd, hpm, hm0, hdisk⟩

lemma foldl_good (o : Oracles) (cfg : MonitorCfg) (d0 : DiskFile)
    (mem0 : List String)
    (hps : ∀ l, o.pickleSize l ≤ max_file_size)
    (hwo : ∀ s2, o.writeOk s2 = true)
    (hd0 : diskWithinBound d0 = true) (subs : List Submission) :
    ∀ st, PassGood d0 mem0 st →
      PassGood d0 mem0 (subs.foldl (processItem o cfg) st) := by
  induction subs with
  | nil => intro st hg; exact hg
  | cons s rest ih =>
    intro st hg
    exact ih (processItem o cfg st s) (processItem_good o cfg d0 mem0 st s hps hwo hd0 hg)

/-- Summary of one pass started from the set loaded out of the file: the
keys pushed during the pass are distinct and fresh with respect to the
file, the file stays within the size bound, the pushed keys all end up in
the file, and no file key is lost by this (single-monitor) pass. -/
lemma search_good (o : Oracles) (cfg : MonitorCfg)
    (fetch : Except PyError (List Submission)) (disk : DiskFile)
    (hps : ∀ l, o.pickleSize l ≤ max_file_size)
    (hwo : ∀ s2, o.writeOk s2 = true)
    (hd : diskWithinBound disk = true) :
    (pushKeys (search_reddit_for_keywords o cfg fetch (diskKeys disk) disk).events).Nodup ∧
    (∀ k ∈ pushKeys (search_reddit_for_keywords o cfg fetch (diskKeys disk) disk).events,
      k ∉ diskKeys disk) ∧
    diskWithinBound (search_reddit_for_keywords o cfg fetch (diskKeys disk) disk).disk = true ∧
    (∀ k ∈ pushKeys (search_reddit_for_keywords o cfg fetch (diskKeys disk) disk).events,
      k ∈ diskKeys (search_reddit_for_keywords o cfg fetch (diskKeys disk) disk).disk) ∧
    (∀ k ∈ diskKeys disk,
      k ∈ diskKeys (search_reddit_for_keywords o cfg fetch (diskKeys disk) disk).disk) := by
  cases fetch with
  | error e =>
    unfold search_reddit_for_keywords
    refine ⟨?_, ?_, hd, ?_, fun k hk => hk⟩
    · simp [pushKeys_send_error]
    · intro k hk
      simp [pushKeys_send_error] at hk
    · intro k hk
      simp [pushKeys_send_error] at hk
  | ok subs =>
    have hg := foldl_good o cfg disk (diskKeys disk) hps hwo hd subs
      { processed := diskKeys disk, disk := disk, events := [], aborted := false }
      ⟨rfl, List.nodup_nil, by simp, fun k h => h, Or.inl ⟨rfl, rfl⟩⟩
    obtain ⟨_, h1, h2, h3, h4⟩ := hg
    unfold search_reddit_for_keywords
    refine ⟨h1, fun k hk => (h2 k hk).2, ?_, ?_, ?_⟩
    · rcases h4 with ⟨hdeq, _⟩ | ⟨sz, hv, hsz⟩
      · rw [hdeq]
        exact hd
      · rw [hv]
        simp only [diskWithinBound, decide_eq_true_eq]
        exact hsz
    · intro k hk
      rcases h4 with ⟨hdeq, hemp⟩ | ⟨sz, hv, hsz⟩
      · rw [hemp] at hk
        cases hk
      · rw [hv]
        exact (h2 k hk).1
    · intro k hk
      rcases h4 with ⟨hdeq, _⟩ | ⟨sz, hv, hsz⟩
      · rw [hdeq]
        exact hk
      · rw [hv]
        exact h3 k hk

/-- Run-level invariant for a single configured source with successful
writes and bounded pickle sizes: the run completes, its pushed keys are
distinct, fresh with respect to the starting file, and absorbed into the
final file, and file keys are never lost. -/
lemma runCycles_good (cfg : MonitorCfg) :
    ∀ (inputs : List CycleInput) (disk : DiskFile),
      diskWithinBound disk = true →
      (∀ i ∈ inputs, ∀ l, i.oracles.pickleSize l ≤ max_file_size) →
      (∀ i ∈ inputs, ∀ s, i.oracles.writeOk s = true) →
      ∃ d evs, runCycles cfg inputs disk = Except.ok (d, evs) ∧
        (pushKeys evs).Nodup ∧
        diskWithinBound d = true ∧
        (∀ k ∈ pushKeys evs, k ∉ diskKeys disk ∧ k ∈ diskKeys d) ∧
        (∀ k ∈ diskKeys disk, k ∈ diskKeys d) := by
  intro inputs
  induction inputs with
  | nil =>
    intro disk hd _ _
    refine ⟨disk, [], rfl, List.nodup_nil, hd, ?_, fun k h => h⟩
    intro k hk
    cases hk
  | cons i rest ih =>
    intro disk hd hps hwo
    have hload := load_eq_diskKeys disk hd
    have hps1 : ∀ l, i.oracles.pickleSize l ≤ max_file_size :=
      hps i (List.mem_cons_self i rest)
    have hwo1 : ∀ s2, i.oracles.writeOk s2 = true :=
      hwo i (List.mem_cons_self i rest)
    have hpsr : ∀ j ∈ rest, ∀ l, j.oracles.pickleSize l ≤ max_file_size :=
      fun j hj => hps j (List.mem_cons_of_mem i hj)
    have hwor : ∀ j ∈ rest, ∀ s2, j.oracles.writeOk s2 = true :=
      fun j hj => hwo j (List.mem_cons_of_mem i hj)
    have hcy : runCycle cfg i disk = Except.ok
        (search_reddit_for_keywords i.oracles cfg i.fetch (diskKeys disk) disk) := by
      unfold runCycle
      rw [hload]
    obtain ⟨sg1, sg2, sg3, sg4, sg5⟩ :=
      search_good i.oracles cfg i.fetch disk hps1 hwo1 hd
    obtain ⟨d, evs2, hrec, hnd2, hdb2, hfresh2, hmono2⟩ :=
      ih (search_reddit_for_keywords i.oracles cfg i.fetch (diskKeys disk) disk).disk
        sg3 hpsr hwor
    refine ⟨d, (search_reddit_for_keywords i.oracles cfg i.fetch
        (diskKeys disk) disk).events ++ evs2, ?_, ?_, hdb2, ?_, ?_⟩
    · show runCycles cfg (i :: rest) disk = _
      unfold runCycles
      simp only [hcy]
      simp only [hrec]
    · rw [pushKeys_append, List.nodup_append]
      refine ⟨sg1, hnd2, ?_⟩
      intro a ha1 ha2
      exact (hfresh2 a ha2).1 (sg4 a ha1)
    · intro k hk
      rw [pushKeys_append, List.mem_append] at hk
      rcases hk with hk | hk
      · exact ⟨sg2 k hk, hmono2 _ (sg4 k hk)⟩
      · exact ⟨fun hin => (hfresh2 k hk).1 (sg5 k hin), (hfresh2 k hk).2⟩
    · intro k hk
      exact hmono2 _ (sg5 k hk)

/-- Claim C1, amended: for a single configured source, provided every pickle
write succeeds and the state file never exceeds the 5 MB threshold, so the
reset of save never fires, a push notification is dispatched at most once
per SeenKey across any number of cycles within one process lifetime, later
cycles skipping every already-recorded (source, item-id) pair. Without the
provisos the code violates the claim: an oversized file makes save drop the
freshly recorded key, and the same item is pushed again next cycle. -/
theorem claim_C1_at_most_once_per_key (cfg : MonitorCfg)
    (inputs : List CycleInput) (disk : DiskFile)
    (hd : diskWithinBound disk = true)
    (hps : ∀ i ∈ inputs, ∀ l, i.oracles.pickleSize l ≤ max_file_size)
    (hwo : ∀ i ∈ inputs, ∀ s2, i.oracles.writeOk s2 = true) :
    ∃ d evs, runCycles cfg inputs disk = Except.ok (d, evs) ∧
      (pushKeys evs).Nodup := by
  obtain ⟨d, evs, h1, h2, _⟩ := runCycles_good cfg inputs disk hd hps hwo
  exact ⟨d, evs, h1, h2⟩

/-- A cycle input used by the C1 witness: one fetched submission, all
effects succeed, tiny pickle encoding. -/
def wCycleInput : CycleInput :=
  { fetch := Except.ok [wSub],
    oracles := { pushResult := fun _ => Except.ok "1",
                 errResult := fun _ => Except.ok "1",
                 writeOk := fun _ => true, pickleSize := fun _ => 64 } }

/-- Witness for the amended C1: two cycles re-fetching the same submission,
starting with no state file. -/
theorem claim_C1_at_most_once_per_key_witness :
    ∃ d evs, runCycles wCfg [wCycleInput, wCycleInput] DiskFile.absent =
        Except.ok (d, evs) ∧ (pushKeys evs).Nodup :=
  claim_C1_at_most_once_per_key wCfg [wCycleInput, wCycleInput] DiskFile.absent
    rfl
    (by
      intro i hi l
      rcases List.mem_cons.mp hi with rfl | hi2
      · show (64 : Nat) ≤ max_file_size
        decide
      · rcases List.mem_cons.mp hi2 with rfl | hi3
        · show (64 : Nat) ≤ max_file_size
          decide
        · cases hi3)
    (by
      intro i hi s2
      rcases List.mem_cons.mp hi with rfl | hi2
      · rfl
      · rcases List.mem_cons.mp hi2 with rfl | hi3
        · rfl
        · cases hi3)

/-- The submission of the C1 counterexample, fetched again by the second
cycle. -/
def c1Sub : Submission :=
  { id := "x1", title := "deal", score := 10, url := "u", permalink := "p" }

/-- A cycle input for the C1 counterexample: one matching submission, all
external effects succeed. -/
def c1Input : CycleInput :=
  { fetch := Except.ok [c1Sub],
    oracles := { pushResult := fun _ => Except.ok "1",
                 errResult := fun _ => Except.ok "1",
                 writeOk := fun _ => true, pickleSize := fun _ => 64 } }

/-- The C1 counterexample run: the state file starts above the 5 MB
threshold (the inflated-file scenario of the specification), and the same
submission is fetched in two successive cycles of one process lifetime. -/
def c1Run : Except PyError (DiskFile × List Event) :=
  runCycles { subreddit := "frugal", keywords := [], minUpvotes := none }
    [c1Input, c1Input] (DiskFile.valid 6291456 ["frugal-old"])

/-- The events of the C1 counterexample run. -/
def c1Events : List Event :=
  match c1Run with
  | .ok (_, evs) => evs
  | .error _ => []

/-- Claim C1 is false on the code: in the counterexample run the first
cycle pushes the item and records its key, but the save-time reset empties
the set it persists, so the second cycle pushes the very same SeenKey
again: two notifications for one key within one process lifetime. -/
theorem claim_C1_counterexample :
    (pushKeys c1Events).count (seenKey "frugal" "x1") = 2 := by
  decide

/-- Claim C10: per-instance state plus whole-file rewrites lose concurrent
updates. In order: a successful save persists exactly the saving instance
current in-memory set; a fresh instance loads exactly the file contents; a
key recorded and persisted by a first instance after a second instance
loaded is gone from the file once the second instance saves; an item whose
key is in the loaded set is skipped without a push; and an unseen matching
item is pushed, so later-cycle dedup is driven solely by the keys that
survived in the file at cycle end. -/
theorem claim_C10_saves_clobber_concurrent_keys (pickleSize : List String → Nat) :
    (∀ mem disk,
      (save_processed_submissions pickleSize true mem disk).disk =
        DiskFile.valid
          (pickleSize (save_processed_submissions pickleSize true mem disk).mem)
          (save_processed_submissions pickleSize true mem disk).mem) ∧
    (∀ sz c, load_processed_submissions (DiskFile.valid sz c) = Except.ok c) ∧
    (∀ (c2 c1 : List String) (sz1 : Nat) (k k2 : String),
      k ∈ c1 → k ∉ c2 → k ≠ k2 → sz1 ≤ max_file_size →
      k ∉ diskKeys (save_processed_submissions pickleSize true
            (c2.insert k2) (DiskFile.valid sz1 c1)).disk) ∧
    (∀ (o : Oracles) (cfg : MonitorCfg) (st : PassState) (s : Submission),
      st.aborted = false →
      seenKey cfg.subreddit s.id ∈ st.processed →
      (processItem o cfg st s).processed = st.processed ∧
      pushKeys (processItem o cfg st s).events = pushKeys st.events) ∧
    (∀ (o : Oracles) (cfg : MonitorCfg) (st : PassState) (s : Submission),
      st.aborted = false →
      seenKey cfg.subreddit s.id ∉ st.processed →
      submissionMatches cfg.keywords cfg.minUpvotes s = true →
      pushKeys (processItem o cfg st s).events =
        pushKeys st.events ++ [seenKey cfg.subreddit s.id]) := by
  refine ⟨?_, ?_, ?_, ?_, ?_⟩
  · intro mem disk
    exact save_disk_eq pickleSize mem disk
  · intro sz c
    rfl
  · intro c2 c1 sz1 k k2 hk1 hk2 hkk hsz
    have hov : oversize (DiskFile.valid sz1 c1) = false := by
      simp only [oversize, DiskFile.getSize?, decide_eq_false_iff_not]
      omega
    rw [save_no_overflow pickleSize _ _ hov]
    show k ∉ diskKeys (DiskFile.valid (pickleSize (c2.insert k2)) (c2.insert k2))
    intro hin
    rcases List.mem_insert_iff.mp hin with rfl | hin2
    · exact hkk rfl
    · exact hk2 hin2
  · intro o cfg st s ha hk
    rw [processItem_skip o cfg st s ha hk]
    refine ⟨rfl, ?_⟩
    simp [pushKeys_append]
  · intro o cfg st s ha hk hm
    by_cases hw : o.writeOk s = true
    · rw [processItem_match_ok o cfg st s ha hk hm hw]
      simp [pushKeys_append, pushKeys_send_push]
    · replace hw : o.writeOk s = false := by
        cases h : o.writeOk s with
        | true => exact absurd h hw
        | false => rfl
      rw [processItem_match_fail o cfg st s ha hk hm hw]
      simp [pushKeys_append, pushKeys_send_push, pushKeys_send_error]

/-- Witness for C10: the lost-update conjunct at concrete values. Instance
one persisted the key a-1 into the file; instance two, which loaded before
that and then records b-9, saves a set without a-1, erasing it. -/
theorem claim_C10_saves_clobber_concurrent_keys_witness :
    "a-1" ∉ diskKeys (save_processed_submissions (fun _ => 64) true
        (List.insert "b-9" []) (DiskFile.valid 100 ["a-1"])).disk :=
  (claim_C10_saves_clobber_concurrent_keys (fun _ => 64)).2.2.1 [] ["a-1"] 100
    "a-1" "b-9" (by decide) (by decide) (by decide) (by decide)

/-- Cancellation around a separator that occurs in neither left part. -/
lemma append_sep_cancel {α : Type} (c : α) :
    ∀ (l1 l2 m1 m2 : List α), c ∉ l1 → c ∉ l2 →
      l1 ++ c :: m1 = l2 ++ c :: m2 → l1 = l2 ∧ m1 = m2 := by
  intro l1
  induction l1 with
  | nil =>
    intro l2 m1 m2 _ h2 h
    cases l2 with
    | nil => simpa using h
    | cons b t =>
      simp only [List.nil_append, List.cons_append, List.cons.injEq] at h
      exact absurd (h.1 ▸ List.mem_cons_self b t) h2
  | cons a t1 ih =>
    intro l2 m1 m2 h1 h2 h
    cases l2 with
    | nil =>
      simp only [List.nil_append, List.cons_append, List.cons.injEq] at h
      exact absurd (h.1 ▸ List.mem_cons_self a t1) h1
    | cons b t2 =>
      simp only [List.cons_append, List.cons.injEq] at h
      have h1' : c ∉ t1 := fun hc => h1 (List.mem_cons_of_mem a hc)
      have h2' : c ∉ t2 := fun hc => h2 (List.mem_cons_of_mem b hc)
      obtain ⟨hs, hm⟩ := ih t2 m1 m2 h1' h2' h.2
      exact ⟨by rw [h.1, hs], hm⟩

/-- Claim C2 is false on the code: with a previous state file above the 5 MB
threshold, the next save removes the file but persists the EMPTY set; the
newly recorded key sub-new is discarded from memory and from disk, rather
than being kept as the single element of the persisted set. -/
theorem claim_C2_counterexample :
    (save_processed_submissions List.length true ["sub-new"]
        (DiskFile.valid 6291456 ["sub-old"])).mem = [] ∧
    (save_processed_submissions List.length true ["sub-new"]
        (DiskFile.valid 6291456 ["sub-old"])).disk = DiskFile.valid 0 [] ∧
    (save_processed_submissions List.length true ["sub-new"]
        (DiskFile.valid 6291456 ["sub-old"])).mem ≠ ["sub-new"] := by
  refine ⟨rfl, rfl, ?_⟩
  decide

/-- Claim C2, amended: for every save made while the previously persisted
state file exceeds the 5 MB threshold, the old file is removed and the set
that is then persisted, and kept in memory, is the EMPTY set: a full reset
that also drops the newly recorded key. -/
theorem claim_C2_overflow_reset_to_empty (pickleSize : List String → Nat)
    (mem c : List String) (sz : Nat) (hsz : max_file_size < sz) :
    save_processed_submissions pickleSize true mem (DiskFile.valid sz c) =
      { mem := [], disk := DiskFile.valid (pickleSize []) [], err := none } := by
  simp [save_processed_submissions, oversize, DiskFile.getSize?, hsz]

/-- Witness for the amended C2 at a concrete oversized file. -/
theorem claim_C2_overflow_reset_to_empty_witness :
    max_file_size < 6291456 ∧
    save_processed_submissions List.length true ["sub-new"]
        (DiskFile.valid 6291456 ["sub-old"]) =
      { mem := [], disk := DiskFile.valid 0 [], err := none } :=
  ⟨by decide,
   claim_C2_overflow_reset_to_empty List.length ["sub-new"] ["sub-old"] 6291456 (by decide)⟩

/-- Claim C3 is false on the code: load_processed_submissions catches only
FileNotFoundError, so a present but corrupt state file makes pickle.load
raise out of the method instead of returning the empty set. -/
theorem claim_C3_counterexample :
    load_processed_submissions (DiskFile.corrupt 512) =
        Except.error PyError.unpickling ∧
    load_processed_submissions (DiskFile.corrupt 512) ≠ Except.ok [] :=
  ⟨rfl, fun h => Except.noConfusion h⟩

/-- Claim C3, amended: if the state file is absent, load returns the empty
set without raising; if the file is present but fails to deserialize, the
deserialization error propagates to the caller, the RedditMonitor
constructor, rather than degrading to the empty set. -/
theorem claim_C3_load_absent_or_corrupt (n : Nat) :
    load_processed_submissions DiskFile.absent = Except.ok [] ∧
    load_processed_submissions (DiskFile.corrupt n) =
      Except.error PyError.unpickling :=
  ⟨rfl, rfl⟩

/-- Witness for the amended C3 at a concrete file size. -/
theorem claim_C3_load_absent_or_corrupt_witness :
    load_processed_submissions DiskFile.absent = Except.ok [] ∧
    load_processed_submissions (DiskFile.corrupt 512) =
      Except.error PyError.unpickling :=
  claim_C3_load_absent_or_corrupt 512

/-- Claim C4 names a code bug: when a future raises, the except block of
main evaluates RedditMonitor(reddit), which lacks the required positional
arguments subreddit and keywords, so the handler itself raises TypeError
instead of sending the error notification and continuing; the TypeError is
uncaught and aborts the cycle and the process. -/
theorem claim_C4_handler_itself_raises :
    handleFutureResult (Except.error PyError.fetchError) =
        Except.error PyError.typeError ∧
    ∀ evs, handleFutureResult (Except.error PyError.fetchError) ≠ Except.ok evs :=
  ⟨rfl, fun _ h => Except.noConfusion h⟩

/-- Claim C9 is false on the code: the SeenKey derivation joins the source
name and the item id with a hyphen, which collides when the source name
itself contains a hyphen. -/
theorem claim_C9_counterexample :
    seenKey "a-b" "c" = seenKey "a" "b-c" ∧
    (("a-b", "c") : String × String) ≠ ("a", "b-c") := by
  constructor
  · decide
  · decide

/-- Claim C9, amended: the SeenKey derivation is injective provided the two
source names contain no hyphen character, which holds for real subreddit
names; dedup keys then never collide across sources. -/
theorem claim_C9_seenKey_injective (s1 i1 s2 i2 : String)
    (h1 : ('-' : Char) ∉ s1.data) (h2 : ('-' : Char) ∉ s2.data)
    (h : seenKey s1 i1 = seenKey s2 i2) : s1 = s2 ∧ i1 = i2 := by
  have hdash : ("-" : String).data = ['-'] := rfl
  have hd : s1.data ++ '-' :: i1.data = s2.data ++ '-' :: i2.data := by
    have hcong := congrArg String.data h
    simpa [seenKey, String.data_append, hdash] using hcong
  obtain ⟨hs, hi⟩ := append_sep_cancel '-' s1.data s2.data i1.data i2.data h1 h2 hd
  exact ⟨String.ext hs, String.ext hi⟩

/-- Witness for the amended C9 at concrete hyphen-free subreddit names. -/
theorem claim_C9_seenKey_injective_witness :
    ("funny" : String) = "funny" ∧ ("ab12" : String) = "ab12" :=
  claim_C9_seenKey_injective "funny" "ab12" "funny" "ab12"
    (by decide) (by decide) (by decide)

/-- The score clause agrees with the inclusive-threshold reading. -/
lemma upvotesOk_iff (minUpvotes : Option Int) (score : Int) :
    upvotesOk minUpvotes score = true ↔
      ∀ m, minUpvotes = some m → m ≤ score := by
  cases minUpvotes with
  | none => simp [upvotesOk]
  | some m => simp [upvotesOk]

/-- With lowercase keywords, as the WatchSpec data model prescribes, the
keyword clause agrees with case-insensitive substring containment. -/
lemma keywordOk_iff (keywords : List String) (title : String)
    (hkw : ∀ kw ∈ keywords, pyLower kw = kw) :
    keywordOk keywords title = true ↔
      ∀ kw ∈ keywords, List.IsInfix (pyLower kw).toList (pyLower title).toList := by
  unfold keywordOk
  rw [List.all_eq_true]
  constructor
  · intro h kw hm
    rw [hkw kw hm]
    exact of_decide_eq_true (h kw hm)
  · intro h kw hm
    apply decide_eq_true
    have hn := h kw hm
    rwa [hkw kw hm] at hn

/-- Claim C5: for every item and every WatchSpec, whose keyword set the data
model fixes as lowercase strings, the code predicate of bot.py lines 127-128
is true exactly when every keyword is a case-insensitive substring of the
title (AND over all keywords, vacuously true for the empty set) and the
minimum score is absent or the score is at least the minimum (inclusive). -/
theorem claim_C5_match_predicate (keywords : List String)
    (minUpvotes : Option Int) (s : Submission)
    (hkw : ∀ kw ∈ keywords, pyLower kw = kw) :
    submissionMatches keywords minUpvotes s = true ↔
      specMatches keywords minUpvotes s := by
  unfold submissionMatches specMatches
  rw [Bool.and_eq_true, keywordOk_iff keywords s.title hkw, upvotesOk_iff]

/-- Witness for C5 at a concrete item and WatchSpec: both keywords occur
case-insensitively and the score meets the inclusive threshold. -/
theorem claim_C5_match_predicate_witness :
    (∀ kw ∈ ["foo", "bar"], pyLower kw = kw) ∧
    (submissionMatches ["foo", "bar"] (some 100)
        { id := "x1", title := "This has FOO and bar", score := 100,
          url := "u", permalink := "p" } = true ↔
      specMatches ["foo", "bar"] (some 100)
        { id := "x1", title := "This has FOO and bar", score := 100,
          url := "u", permalink := "p" }) :=
  ⟨by decide, claim_C5_match_predicate ["foo", "bar"] (some 100)
    { id := "x1", title := "This has FOO and bar", score := 100,
      url := "u", permalink := "p" } (by decide)⟩

end RedditBot
